import Mathlib

/-!
Verification of the Tender-Tracker database layer.

Shallow embedding of:
- the server entry (Express app: config resolution `getAzureDbConfig`,
  handlers for `GET /api/health` and `POST /api/query`, graceful `shutdown`);
- `src/lib/database/config.ts` (`getConnectionConfig`, `dbConfig`,
  `validateConfig`);
- the client `DatabaseAPI` class (`retryOperation`, `query`,
  `onConnectionChange`, `notifyListeners`).

External library functions (the WHATWG `URL` constructor and
the `parse` function of `pg-connection-string`) are modelled as abstract parameters: a
partial function returning the structure of fields the library exposes,
`none` standing for a thrown parse error.  JavaScript truthiness on
string-or-undefined values is modelled on `Option String`: `none`
(undefined) and `some ""` are falsy.
-/

namespace TenderTracker

/-- JavaScript `a || b` for string-or-undefined values: the first operand
is returned when it is truthy (a non-empty string), otherwise the second
operand is the value of the expression. -/
def jsOr (a b : Option String) : Option String :=
  match a with
  | some s => if s = "" then b else some s
  | none => b

/-- JavaScript `a || d` where the fallback `d` is a string literal, so the
result is always a string. -/
def jsOrD (a : Option String) (d : String) : String :=
  match a with
  | some s => if s = "" then d else s
  | none => d

/-- JavaScript truthiness test for a string-or-undefined value: `undefined`
and the empty string are falsy. -/
def falsyOpt : Option String → Bool
  | none => true
  | some s => s = ""

/-- `parseInt(s, 10)` on the strings arising here: the longest digit
prefix, `none` for `NaN` when the string starts with no digit. -/
def jsParseInt (s : String) : Option Nat :=
  (s.takeWhile Char.isDigit).toNat?

/-- JavaScript `s.startsWith(p)`, on the code points. -/
def jsStartsWith (s p : String) : Bool :=
  decide (s.data.take p.data.length = p.data)

/-- The environment variables read by the two config-resolution
functions.  `none` is an unset variable. -/
structure Env where
  azureConnStr : Option String        -- AZURE_POSTGRESQL_CONNECTIONSTRING
  websiteDbPassword : Option String   -- WEBSITE_DBPASSWORD
  pgPassword : Option String          -- PGPASSWORD
  azurePgPassword : Option String     -- AZURE_POSTGRESQL_PASSWORD
  websitePrivateIp : Option String    -- WEBSITE_PRIVATE_IP
  pgHost : Option String              -- PGHOST
  websiteDbName : Option String       -- WEBSITE_DBNAME
  pgDatabase : Option String          -- PGDATABASE
  websiteDbUser : Option String       -- WEBSITE_DBUSER
  pgUser : Option String              -- PGUSER
  websiteDbPort : Option String       -- WEBSITE_DBPORT
  pgPort : Option String              -- PGPORT
  deriving DecidableEq

/-- The fields of a WHATWG `URL` object that the server entry reads, plus
the `password` component the URL API also carries (which the code never
reads). -/
structure URLRec where
  hostname : String
  username : String
  urlPassword : String
  pathname : String
  port : String
  deriving DecidableEq

/-- The config object built by `getAzureDbConfig` in the server entry
(`ssl: { rejectUnauthorized: false }` kept as a boolean field). -/
structure ServerDbConfig where
  host : String
  database : String
  user : String
  password : Option String
  port : Option Nat
  sslRejectUnauthorized : Bool
  deriving DecidableEq

/-- `getAzureDbConfig` from the server entry.  `urlParse` models the `URL`
constructor (`none` = the constructor threw, upon which the code calls
`process.exit(1)`, modelled as `none` overall).  When the connection
string is absent every field falls back through individual variables;
when it is present, host/user/database/port come from the parsed URL and
the password always from the three password variables. -/
def getAzureDbConfig (urlParse : String → Option URLRec) (env : Env) :
    Option ServerDbConfig :=
  match falsyOpt env.azureConnStr, env.azureConnStr with
  | true, _ | _, none =>
    some
      { host := jsOrD (jsOr env.websitePrivateIp env.pgHost)
          "tender-tracking-db2.postgres.database.azure.com"
        database := jsOrD (jsOr env.websiteDbName env.pgDatabase)
          "tender_tracking_db"
        user := jsOrD (jsOr env.websiteDbUser env.pgUser) "abouelfetouhm"
        password := jsOr (jsOr env.websiteDbPassword env.pgPassword)
          env.azurePgPassword
        port := jsParseInt (jsOrD (jsOr env.websiteDbPort env.pgPort) "5432")
        sslRejectUnauthorized := false }
  | false, some cs =>
    match urlParse (if jsStartsWith cs "postgres://" then cs
                    else "postgres://" ++ cs) with
    | none => none   -- console.error | process.exit(1)
    | some u =>
      some
        { host := u.hostname
          user := u.username
          password := jsOr (jsOr env.websiteDbPassword env.pgPassword)
            env.azurePgPassword
          database := u.pathname.drop 1
          port := jsParseInt (if u.port = "" then "5432" else u.port)
          sslRejectUnauthorized := false }

/-- The record that the `parse` function of `pg-connection-string` returns, restricted to the
fields this code can observe; the library does expose a `password`
extracted from the string, which the code never reads. -/
structure PgParsed where
  host : Option String
  database : Option String
  user : Option String
  port : Option String
  pgcsPassword : Option String
  deriving DecidableEq

/-- The config object built by `getConnectionConfig` in
`src/lib/database/config.ts`. -/
structure ClientDbConfig where
  host : Option String
  database : Option String
  user : Option String
  password : Option String
  port : Option Nat
  sslRejectUnauthorized : Bool
  deriving DecidableEq

/-- `getConnectionConfig` from `src/lib/database/config.ts`.  `pgParse`
models the `parse` function of `pg-connection-string` (`none` = it threw, and the code
returns `null`).  An absent connection string also returns `null`. -/
def getConnectionConfig (pgParse : String → Option PgParsed) (env : Env) :
    Option ClientDbConfig :=
  match env.azureConnStr with
  | none => none        -- console.error; return null
  | some cs =>
    match pgParse cs with
    | none => none      -- catch: console.error; return null
    | some p =>
      some
        { host := p.host
          database := p.database
          user := p.user
          password := jsOr (jsOr env.azurePgPassword env.pgPassword)
            env.websiteDbPassword
          port := jsParseInt (jsOrD p.port "5432")
          sslRejectUnauthorized := false }

/-- The exported `dbConfig` object: the spread of `getConnectionConfig()`
(the spread of `null` contributes no fields) together with the constant
pool settings. -/
structure DbConfigSpread where
  host : Option String
  database : Option String
  user : Option String
  password : Option String
  port : Option Nat
  sslRejectUnauthorized : Option Bool
  max : Nat
  idleTimeoutMillis : Nat
  connectionTimeoutMillis : Nat
  keepAlive : Bool
  keepAliveInitialDelayMillis : Nat
  deriving DecidableEq

/-- `dbConfig` from `src/lib/database/config.ts`. -/
def dbConfig (pgParse : String → Option PgParsed) (env : Env) :
    DbConfigSpread :=
  match getConnectionConfig pgParse env with
  | none =>
    { host := none, database := none, user := none, password := none
      port := none, sslRejectUnauthorized := none
      max := 20, idleTimeoutMillis := 30000
      connectionTimeoutMillis := 30000, keepAlive := true
      keepAliveInitialDelayMillis := 10000 }
  | some c =>
    { host := c.host, database := c.database, user := c.user
      password := c.password, port := c.port
      sslRejectUnauthorized := some c.sslRejectUnauthorized
      max := 20, idleTimeoutMillis := 30000
      connectionTimeoutMillis := 30000, keepAlive := true
      keepAliveInitialDelayMillis := 10000 }

/-- The message of the error `validateConfig` throws when the password is
missing. -/
def missingPasswordMsg : String :=
  "Database password is not properly configured. Please set one of the following environment variables:\n- AZURE_POSTGRESQL_PASSWORD\n- PGPASSWORD\n- WEBSITE_DBPASSWORD"

/-- The message of the error `validateConfig` throws when host, database
or user is missing. -/
def missingFieldMsg : String :=
  "Invalid database configuration. Missing required fields."

/-- `validateConfig` from `src/lib/database/config.ts`: throws (modelled
as `Except.error` with the thrown message) on a falsy password, then on a
falsy host, database or user; otherwise returns `true`.  The
`typeof` string-check disjunct is subsumed here because
a resolved password is always a string or `undefined`. -/
def validateConfig (cfg : DbConfigSpread) : Except String Bool :=
  if falsyOpt cfg.password then .error missingPasswordMsg
  else if falsyOpt cfg.host || falsyOpt cfg.database || falsyOpt cfg.user then
    .error missingFieldMsg
  else .ok true

/-- The fixed priority order in which the server entry reads the password
variables: `WEBSITE_DBPASSWORD || PGPASSWORD || AZURE_POSTGRESQL_PASSWORD`
(identical in both branches of `getAzureDbConfig`). -/
def serverPasswordLookup (env : Env) : Option String :=
  jsOr (jsOr env.websiteDbPassword env.pgPassword) env.azurePgPassword

/-- The fixed priority order in which `getConnectionConfig` reads the
password variables: `AZURE_POSTGRESQL_PASSWORD || PGPASSWORD ||
WEBSITE_DBPASSWORD`. -/
def clientPasswordLookup (env : Env) : Option String :=
  jsOr (jsOr env.azurePgPassword env.pgPassword) env.websiteDbPassword

/-! ## HTTP handlers and the pool-usage counter

The pool is modelled by its usage counter: the number of currently leased
clients.  `pool.connect()` succeeding leases a client (counter + 1);
`client.release()` returns it (counter - 1).  Each handler takes the
outcomes of its awaited calls (`pool.connect()`, `client.query(...)`) as
`Except` parameters, `Except.error` standing for a rejected promise. -/

/-- The body of the `GET /api/health` response. -/
structure HealthBody where
  statusField : String          -- "healthy" | "unhealthy"
  database : String             -- "connected" | "disconnected"
  errMsg : Option String        -- only on the unhealthy body
  timestamp : String
  deriving DecidableEq

/-- An HTTP response: status code and body. -/
structure HealthResponse where
  status : Nat
  body : HealthBody
  deriving DecidableEq

/-- The `GET /api/health` handler.  `connect` is the outcome of
`pool.connect()`, `probe` the outcome of `client.query` with the literal probe text `SELECT 1`,
`now` the serialized timestamp, `pool` the pool-usage counter before the
request.  Returns the response and the counter afterwards.  The handler
body is a `try`/`catch` with no `finally`: `client.release()` is only on
the line after the probe, so a rejected probe jumps to `catch` without
releasing. -/
def healthHandler (connect : Except String Unit) (probe : Except String Unit)
    (now : String) (pool : Nat) : HealthResponse × Nat :=
  match connect with
  | .error e =>
    -- await pool.connect() rejected: no lease, catch responds 500
    (⟨500, ⟨"unhealthy", "disconnected", some e, now⟩⟩, pool)
  | .ok _ =>
    let pool1 := pool + 1      -- const client = await pool.connect()
    match probe with
    | .ok _ =>
      -- client.release(); res.json({status: healthy, ...})
      (⟨200, ⟨"healthy", "connected", none, now⟩⟩, pool1 - 1)
    | .error e =>
      -- catch: res.status(500).json(...); client.release() never runs
      (⟨500, ⟨"unhealthy", "disconnected", some e, now⟩⟩, pool1)

/-- The result object of a successful `client.query`: rows, row count and
field metadata, opaque values passed through to the response. -/
structure QueryResult where
  rows : List String
  rowCount : Nat
  fields : List String
  deriving DecidableEq

/-- The body of a `POST /api/query` response. -/
inductive QueryBody where
  | ok (rows : List String) (rowCount : Nat) (fields : List String)
  | err (message : String)        -- { error: true, message }
  deriving DecidableEq

/-- An HTTP response of the query endpoint. -/
structure QueryResponse where
  status : Nat
  body : QueryBody
  deriving DecidableEq

/-- The `POST /api/query` handler.  `text` is `req.body.text` (`none` =
absent), `connect` the outcome of `pool.connect()`, `exec` the outcome of
`client.query(text, params)`, `pool` the usage counter before the
request.  The body is `try`/`catch`/`finally`; the `finally` releases
exactly when `client` was assigned. -/
def queryHandler (text : Option String) (connect : Except String Unit)
    (exec : Except String QueryResult) (pool : Nat) : QueryResponse × Nat :=
  if falsyOpt text then
    -- if (!text) return res.status(400)...; client still undefined,
    -- finally does not release
    (⟨400, .err "Query text is required"⟩, pool)
  else
    match connect with
    | .error e =>
      -- pool.connect() rejected: catch responds 500; client undefined,
      -- finally does not release
      (⟨500, .err e⟩, pool)
    | .ok _ =>
      let pool1 := pool + 1    -- client = await pool.connect()
      match exec with
      | .ok r =>
        -- res.json({rows, rowCount, fields}); finally: client.release()
        (⟨200, .ok r.rows r.rowCount r.fields⟩, pool1 - 1)
      | .error e =>
        -- catch responds 500; finally: client.release()
        (⟨500, .err e⟩, pool1 - 1)

/-! ## Client `DatabaseAPI`: retry with exponential backoff

`retryOperation` reads and writes the instance field `this.retryCount`;
`this.maxRetries = 3` and `this.retryDelay = 1000` are constants.  A call
is modelled as a function from the attempt index to the outcome of one
execution of `operation()`.  The recursion `return
this.retryOperation(operation)` is driven by the guard
`this.retryCount < this.maxRetries`; it is embedded structurally on the
fuel `rem = maxRetries - retryCount`, which the guard keeps equal to the
number of retries still allowed. -/

/-- The observable outcome of one `retryOperation` call: the settled
result, the number of times `operation()` was invoked, the list of
`setTimeout` delays awaited between attempts, and the value of
`this.retryCount` when the call settles. -/
structure RetryRun (α : Type) where
  result : Except String α
  attempts : Nat
  delays : List Nat
  finalRetryCount : Nat

/-- One execution of `retryOperation`, starting at attempt index
`attemptIdx` with `this.retryCount = retryCount` and `rem =
maxRetries - retryCount` retries still allowed (`rem = 0` is exactly the
failure of the guard `retryCount < maxRetries`).  On success
`this.retryCount` is set to 0; on failure within the guard the counter is
incremented, `min(retryDelay * 2^(retryCount - 1), 10000)` (with the
incremented counter) is awaited and the call recurses; once the guard
fails the last error is rethrown. -/
def retryAux {α : Type} (op : Nat → Except String α) (retryDelay : Nat) :
    Nat → Nat → Nat → RetryRun α
  | attemptIdx, retryCount, rem =>
    match op attemptIdx with
    | .ok a => { result := .ok a, attempts := 1, delays := [],
                 finalRetryCount := 0 }        -- this.retryCount = 0
    | .error e =>
      match rem with
      | 0 =>   -- this.retryCount < this.maxRetries is false: throw error
        { result := .error e, attempts := 1, delays := [],
          finalRetryCount := retryCount }
      | rem' + 1 =>
        let rc := retryCount + 1               -- this.retryCount++
        let d := min (retryDelay * 2 ^ (rc - 1)) 10000
        let r := retryAux op retryDelay (attemptIdx + 1) rc rem'
        { result := r.result, attempts := r.attempts + 1,
          delays := d :: r.delays, finalRetryCount := r.finalRetryCount }

/-- `this.maxRetries`. -/
def maxRetries : Nat := 3

/-- `this.retryDelay` in milliseconds. -/
def retryDelay : Nat := 1000

/-- One call to `DatabaseAPI.query` (which is exactly one call to
`retryOperation` on the fetch closure), on an instance whose
`this.retryCount` currently holds `retryCount`.  A freshly constructed
instance has `retryCount = 0`. -/
def queryCall {α : Type} (op : Nat → Except String α) (retryCount : Nat) :
    RetryRun α :=
  retryAux op retryDelay 0 retryCount (maxRetries - retryCount)

/-! ## Client `DatabaseAPI`: listener registry

`connectionListeners` is a JavaScript `Set` of function references:
insertion-ordered, keyed on function identity.  Listeners are identified
by `Nat` ids; `behavior` maps an id and the broadcast boolean to the
outcome of invoking that listener (`Except.error` = the listener threw).
The registry is the insertion-ordered list of ids. -/

/-- `Set.prototype.add`: appends unless already present. -/
def setAdd (s : List Nat) (l : Nat) : List Nat :=
  if l ∈ s then s else s ++ [l]

/-- `Set.prototype.delete`: removes the element. -/
def setDelete (s : List Nat) (l : Nat) : List Nat :=
  s.filter (fun m => m ≠ l)

/-- `notifyListeners(isConnected)`: `forEach` over the set in insertion
order, invoking each listener.  `forEach` installs no handler around the
callback, so a thrown exception terminates the iteration and propagates.
Returns the ids invoked, in order, and the propagated exception if any. -/
def notifyListeners (behavior : Nat → Bool → Except String Unit)
    (isConnected : Bool) : List Nat → List Nat × Option String
  | [] => ([], none)
  | l :: rest =>
    match behavior l isConnected with
    | .ok _ =>
      let r := notifyListeners behavior isConnected rest
      (l :: r.1, r.2)
    | .error e => ([l], some e)

/-! ## Server graceful shutdown

`shutdown` is an async function installed, unguarded, as the handler of
both SIGTERM and SIGINT.  Its body is three sequential steps: the start
log, `await pool.end()` (failure caught and logged), `process.exit(0)`.
Because the body suspends at the `await`, a signal delivered before the
`exit` step runs invokes the handler again.  The machine below interleaves
signal deliveries with single steps of the in-flight shutdown runs. -/

/-- The two termination signals the server subscribes to. -/
inductive Sig where
  | sigterm
  | sigint
  deriving DecidableEq

/-- The atomic steps of the `shutdown` body. -/
inductive ShutStep where
  | logStart     -- console.log of the start message
  | poolEnd      -- await pool.end(), catch logs the error
  | exit0        -- process.exit(0)
  deriving DecidableEq

/-- The step sequence of one execution of `shutdown`. -/
def shutdownBody : List ShutStep := [.logStart, .poolEnd, .exit0]

/-- Process state: the queue of in-flight `shutdown` executions (each the
list of its remaining steps), how many times the `shutdown` body was
entered, how many times `pool.end()` was called, the exit code once
`process.exit` ran, and the log. -/
structure ShutState where
  tasks : List (List ShutStep)
  entries : Nat
  poolEndCalls : Nat
  exitCode : Option Nat
  logs : List String
  deriving DecidableEq

/-- The state before any signal. -/
def shutInit : ShutState :=
  { tasks := [], entries := 0, poolEndCalls := 0, exitCode := none,
    logs := [] }

/-- An event: a signal delivery, or the oldest in-flight shutdown run
performing its next step. -/
inductive ShutEv where
  | signal (s : Sig)
  | step
  deriving DecidableEq

/-- One event of the shutdown machine.  `poolEndFails` fixes the outcome
of `pool.end()`.  After `process.exit` nothing further happens.  A signal
enters the `shutdown` body unconditionally — the code installs the same
`shutdown` function for both signals and the body tests no flag — so each
delivery enqueues a fresh run of the body. -/
def shutEvStep (poolEndFails : Bool) (st : ShutState) (e : ShutEv) :
    ShutState :=
  if st.exitCode.isSome then st
  else
    match e with
    | .signal _ =>
      { st with tasks := st.tasks ++ [shutdownBody],
                entries := st.entries + 1 }
    | .step =>
      match st.tasks with
      | [] => st
      | [] :: rest => { st with tasks := rest }
      | (stp :: more) :: rest =>
        let st' := { st with tasks := more :: rest }
        match stp with
        | .logStart =>
          { st' with logs := st'.logs ++ ["Shutting down gracefully..."] }
        | .poolEnd =>
          if poolEndFails then
            { st' with poolEndCalls := st'.poolEndCalls + 1,
                       logs := st'.logs ++
                         ["Error closing database connection:"] }
          else
            { st' with poolEndCalls := st'.poolEndCalls + 1,
                       logs := st'.logs ++ ["Database connection closed"] }
        | .exit0 => { st' with exitCode := some 0 }

/-- Run the machine over a list of events. -/
def shutRun (poolEndFails : Bool) (evs : List ShutEv) : ShutState :=
  evs.foldl (shutEvStep poolEndFails) shutInit

/-! ## Helper lemmas -/

/-- Whenever `getAzureDbConfig` yields a config, its password is exactly
the fixed-priority lookup over the discrete password variables. -/
theorem getAzureDbConfig_password (urlParse : String → Option URLRec)
    (env : Env) (c : ServerDbConfig)
    (h : getAzureDbConfig urlParse env = some c) :
    c.password = serverPasswordLookup env := by
  unfold getAzureDbConfig at h
  split at h
  · cases h
    rfl
  · cases h
    rfl
  · split at h
    · exact absurd h (by simp)
    · cases h
      rfl

/-- Whenever `getConnectionConfig` yields a config, its password is
exactly the fixed-priority lookup over the discrete password
variables. -/
theorem getConnectionConfig_password (pgParse : String → Option PgParsed)
    (env : Env) (c : ClientDbConfig)
    (h : getConnectionConfig pgParse env = some c) :
    c.password = clientPasswordLookup env := by
  unfold getConnectionConfig at h
  split at h
  · exact absurd h (by simp)
  · split at h
    · exact absurd h (by simp)
    · cases h
      rfl

/-- When no listener throws, `notifyListeners` invokes every registered
listener, in insertion order, and no exception propagates. -/
theorem notifyListeners_all_ok (behavior : Nat → Bool → Except String Unit)
    (conn : Bool) :
    ∀ s : List Nat, (∀ l ∈ s, behavior l conn = .ok ()) →
      notifyListeners behavior conn s = (s, none) := by
  intro s
  induction s with
  | nil => intro _; rfl
  | cons l rest ih =>
    intro h
    have hl : behavior l conn = .ok () := h l (by simp)
    have hrest := ih (fun m hm => h m (by simp [hm]))
    simp [notifyListeners, hl, hrest]

/-! ## Claim C1 -/

/-- C1.  The `POST /api/query` handler returns the pool-usage counter to
its pre-call value on every outcome (validation error, connect failure,
execution success, execution failure), but the `GET /api/health` handler
does not: when `pool.connect()` succeeds and the probe query rejects,
the handler body jumps to `catch` without running `client.release()`
(there is no `finally`), leaving the counter one above its pre-call
value — the acquired connection leaks.  This refutes the claimed
release-on-every-exit-path invariant for the health handler. -/
theorem c1_query_balanced_health_leaks_on_probe_error :
    (∀ (text : Option String) (connect : Except String Unit)
       (exec : Except String QueryResult) (pool : Nat),
       (queryHandler text connect exec pool).2 = pool) ∧
    (∀ (e now : String) (pool : Nat),
       (healthHandler (.ok ()) (.error e) now pool).2 = pool + 1) := by
  constructor
  · intro text connect exec pool
    unfold queryHandler
    split
    · rfl
    · cases connect with
      | error e => rfl
      | ok u => cases exec <;> rfl
  · intro e now pool
    rfl

/-! ## Claim C6 -/

/-- C6.  `POST /api/query`: a request whose `text` is absent or empty
gets status 400 with body `{ error: true, message }` and the handler
neither touches the pool counter nor depends on the pool at all; a
request with non-empty `text` gets 200 with `{ rows, rowCount, fields }`
when execution succeeds, and 500 with `{ error: true, message }` when
the connection or the execution fails — with the counter back at its
pre-call value in every case. -/
theorem c6_query_endpoint_contract (text : Option String)
    (connect : Except String Unit) (exec : Except String QueryResult)
    (pool : Nat) :
    (falsyOpt text = true →
      queryHandler text connect exec pool =
        (⟨400, .err "Query text is required"⟩, pool) ∧
      ∀ (connect2 : Except String Unit) (exec2 : Except String QueryResult),
        queryHandler text connect exec pool =
          queryHandler text connect2 exec2 pool) ∧
    (falsyOpt text = false →
      (∀ r : QueryResult, connect = .ok () → exec = .ok r →
        queryHandler text connect exec pool =
          (⟨200, .ok r.rows r.rowCount r.fields⟩, pool)) ∧
      (∀ e : String, connect = .ok () → exec = .error e →
        queryHandler text connect exec pool = (⟨500, .err e⟩, pool)) ∧
      (∀ e : String, connect = .error e →
        queryHandler text connect exec pool = (⟨500, .err e⟩, pool))) := by
  constructor
  · intro hfalsy
    constructor
    · simp [queryHandler, hfalsy]
    · intro connect2 exec2
      simp [queryHandler, hfalsy]
  · intro htruthy
    refine ⟨?_, ?_, ?_⟩
    · intro r hc he
      subst hc he
      simp [queryHandler, htruthy]
    · intro e hc he
      subst hc he
      simp [queryHandler, htruthy]
    · intro e hc
      subst hc
      simp [queryHandler, htruthy]

/-- Witness for C6 at concrete inputs: a valid request succeeding, and an
empty-text request rejected with 400. -/
theorem c6_query_endpoint_contract_witness :
    queryHandler (some "SELECT 1") (.ok ()) (.ok ⟨["r1"], 1, ["id"]⟩) 7 =
      (⟨200, .ok ["r1"] 1 ["id"]⟩, 7) ∧
    queryHandler (some "") (.ok ()) (.ok ⟨["r1"], 1, ["id"]⟩) 7 =
      (⟨400, .err "Query text is required"⟩, 7) := by
  constructor
  · exact ((c6_query_endpoint_contract (some "SELECT 1") (.ok ())
      (.ok ⟨["r1"], 1, ["id"]⟩) 7).2 rfl).1 ⟨["r1"], 1, ["id"]⟩ rfl rfl
  · exact ((c6_query_endpoint_contract (some "") (.ok ())
      (.ok ⟨["r1"], 1, ["id"]⟩) 7).1 rfl).1

/-! ## Claim C2 -/

/-- An operation that fails on every attempt, with the attempt index
recorded in the error message. -/
def alwaysFailOp : Nat → Except String Nat :=
  fun i => .error ("fail-" ++ toString i)

/-- C2 counterexample.  The claim quantifies over every call to
`DatabaseAPI.query`: but after a first always-failing call (which leaves
the shared instance field `this.retryCount` at 3), a second
always-failing call on the same instance performs exactly one attempt,
not `maxRetries + 1 = 4`. -/
theorem c2_counterexample :
    (queryCall alwaysFailOp 0).finalRetryCount = 3 ∧
    (queryCall alwaysFailOp ((queryCall alwaysFailOp 0).finalRetryCount)).attempts
      = 1 ∧
    (1 : Nat) ≠ 4 := by
  refine ⟨rfl, rfl, by decide⟩

/-- C2 as amended.  A `query` call that starts with the instance attempt
counter at 0 (a fresh instance, or any instance whose last settled
attempt succeeded) and whose operation fails on every attempt performs
exactly `maxRetries + 1 = 4` attempts, waits 1000, 2000 and 4000 ms
between them, rejects with the error of the last (fourth) attempt, and
leaves the instance counter at 3. -/
theorem c2_retry_exhaustion_from_fresh_counter (errs : Nat → String) :
    queryCall (fun i => (.error (errs i) : Except String Nat)) 0 =
      { result := .error (errs 3), attempts := 4,
        delays := [1000, 2000, 4000], finalRetryCount := 3 } :=
  rfl

/-! ## Claim C3 -/

/-- An operation that always fails with a fixed error. -/
def c3FailOp : Nat → Except String Nat :=
  fun _ => .error "network down"

/-- C3 counterexample.  The attempt counter is not per-call: the same
always-failing operation run as a first call performs 4 attempts, while
the immediately following call on the same instance — starting from the
counter value 3 that the first call left behind in the shared field —
performs 1, so a later call observes the retry state of an earlier
one. -/
theorem c3_counterexample :
    (queryCall c3FailOp 0).finalRetryCount = 3 ∧
    (queryCall c3FailOp ((queryCall c3FailOp 0).finalRetryCount)).attempts ≠
      (queryCall c3FailOp 0).attempts := by
  refine ⟨rfl, by decide⟩

/-- C3 as amended.  The retry counter is shared mutable instance state
(`this.retryCount`), not per-call: any successful attempt resets it to 0
whatever it held, an exhausted call leaves it at `maxRetries = 3` on the
instance, and a subsequent always-failing call starting from that
residue performs a single attempt instead of four. -/
theorem c3_retry_counter_is_instance_state :
    (∀ (v : Nat) (r : Nat),
      (queryCall (fun _ => (.ok v : Except String Nat)) r).finalRetryCount
        = 0) ∧
    (∀ e : String,
      (queryCall (fun _ => (.error e : Except String Nat)) 0).finalRetryCount
        = maxRetries) ∧
    (∀ e : String,
      (queryCall (fun _ => (.error e : Except String Nat)) maxRetries).attempts
        = 1) := by
  refine ⟨fun v r => ?_, fun e => rfl, fun e => rfl⟩
  unfold queryCall retryAux
  rfl

/-! ## Claim C7 -/

/-- An operation that fails on the first two attempts and succeeds on
the third. -/
def failTwiceOp : Nat → Except String Nat :=
  fun i => if i < 2 then .error "transient" else .ok 42

/-- An always-failing operation used to drive the instance counter to its
residue. -/
def c7FailOp : Nat → Except String Nat :=
  fun _ => .error "still down"

/-- C7 counterexample.  A `query` call whose operation fails exactly
twice then succeeds does not always return the success result after 3
attempts: on an instance whose previous call exhausted its retries
(leaving the shared counter at 3), such a call performs a single attempt
and rejects. -/
theorem c7_counterexample :
    (queryCall c7FailOp 0).finalRetryCount = 3 ∧
    (queryCall failTwiceOp ((queryCall c7FailOp 0).finalRetryCount)).attempts
      = 1 ∧
    (queryCall failTwiceOp ((queryCall c7FailOp 0).finalRetryCount)).result
      = .error "transient" := by
  exact ⟨rfl, rfl, rfl⟩

/-- C7 as amended.  Provided the call starts with the instance attempt
counter at 0: the wait before retry number n is
`min(1000 * 2 ^ (n - 1), 10000)` ms, so an operation failing exactly
twice then succeeding waits 1000 ms then 2000 ms, returns the success
result after exactly 3 attempts, and the counter is reset to 0 by the
successful attempt. -/
theorem c7_backoff_delays_from_fresh_counter :
    (∀ (e0 e1 : String) (v : Nat),
      queryCall (fun i => if i = 0 then .error e0
                          else if i = 1 then .error e1
                          else (.ok v : Except String Nat)) 0 =
        { result := .ok v, attempts := 3, delays := [1000, 2000],
          finalRetryCount := 0 }) ∧
    (∀ errs : Nat → String,
      (queryCall (fun i => (.error (errs i) : Except String Nat)) 0).delays =
        [min (1000 * 2 ^ 0) 10000, min (1000 * 2 ^ 1) 10000,
         min (1000 * 2 ^ 2) 10000]) := by
  exact ⟨fun e0 e1 v => rfl, fun errs => rfl⟩

/-! ## Claim C4 -/

/-- C4.  Neither config-resolution function ever takes the password from
the connection string: whenever resolution succeeds, the resolved
password is exactly the fixed-priority lookup over the three discrete
password variables (`WEBSITE_DBPASSWORD || PGPASSWORD ||
AZURE_POSTGRESQL_PASSWORD` in the server entry,
`AZURE_POSTGRESQL_PASSWORD || PGPASSWORD || WEBSITE_DBPASSWORD` in
`config.ts`).  Hence two environments that agree on the password
variables — however their connection strings differ, whatever passwords
those strings embed, and whatever the URL parsers extract — resolve to
the same password. -/
theorem c4_password_never_from_connection_string
    (urlParse1 urlParse2 : String → Option URLRec)
    (pgParse1 pgParse2 : String → Option PgParsed) (env1 env2 : Env)
    (hw : env1.websiteDbPassword = env2.websiteDbPassword)
    (hp : env1.pgPassword = env2.pgPassword)
    (ha : env1.azurePgPassword = env2.azurePgPassword) :
    (∀ c1 c2 : ServerDbConfig,
      getAzureDbConfig urlParse1 env1 = some c1 →
      getAzureDbConfig urlParse2 env2 = some c2 →
      c1.password = serverPasswordLookup env1 ∧ c1.password = c2.password) ∧
    (∀ c1 c2 : ClientDbConfig,
      getConnectionConfig pgParse1 env1 = some c1 →
      getConnectionConfig pgParse2 env2 = some c2 →
      c1.password = clientPasswordLookup env1 ∧ c1.password = c2.password) := by
  constructor
  · intro c1 c2 h1 h2
    have e1 := getAzureDbConfig_password urlParse1 env1 c1 h1
    have e2 := getAzureDbConfig_password urlParse2 env2 c2 h2
    refine ⟨e1, ?_⟩
    rw [e1, e2]
    unfold serverPasswordLookup
    rw [hw, hp, ha]
  · intro c1 c2 h1 h2
    have e1 := getConnectionConfig_password pgParse1 env1 c1 h1
    have e2 := getConnectionConfig_password pgParse2 env2 c2 h2
    refine ⟨e1, ?_⟩
    rw [e1, e2]
    unfold clientPasswordLookup
    rw [hw, hp, ha]

/-- A concrete URL parser for the two demonstration connection strings;
the second string embeds an inline password, which the parser exposes in
the `urlPassword` field. -/
def demoUrlParse : String → Option URLRec :=
  fun s =>
    if s = "postgres://u@h/db" then some ⟨"h", "u", "", "/db", ""⟩
    else if s = "postgres://u2:inlinepw@h2/db2" then
      some ⟨"h2", "u2", "inlinepw", "/db2", ""⟩
    else none

/-- A concrete `pg-connection-string` parser for the two demonstration
connection strings, likewise exposing the embedded password of the
second. -/
def demoPgParse : String → Option PgParsed :=
  fun s =>
    if s = "postgres://u@h/db" then
      some ⟨some "h", some "db", some "u", none, none⟩
    else if s = "postgres://u2:inlinepw@h2/db2" then
      some ⟨some "h2", some "db2", some "u2", none, some "inlinepw"⟩
    else none

/-- A demonstration environment: connection string without an embedded
password, `PGPASSWORD` set. -/
def c4Env1 : Env :=
  { azureConnStr := some "postgres://u@h/db"
    websiteDbPassword := none, pgPassword := some "s3cret"
    azurePgPassword := none, websitePrivateIp := none, pgHost := none
    websiteDbName := none, pgDatabase := none, websiteDbUser := none
    pgUser := none, websiteDbPort := none, pgPort := none }

/-- The same environment except for the connection string, which now
embeds the password `inlinepw`. -/
def c4Env2 : Env :=
  { c4Env1 with azureConnStr := some "postgres://u2:inlinepw@h2/db2" }

/-- Witness for C4: on the two demonstration environments — identical
password variables, connection strings differing and one embedding
`inlinepw` — both resolution functions yield the env-derived password
`s3cret` in both environments, never `inlinepw`. -/
theorem c4_password_never_from_connection_string_witness :
    (∀ c1 c2 : ServerDbConfig,
      getAzureDbConfig demoUrlParse c4Env1 = some c1 →
      getAzureDbConfig demoUrlParse c4Env2 = some c2 →
      c1.password = serverPasswordLookup c4Env1 ∧ c1.password = c2.password) ∧
    serverPasswordLookup c4Env1 = some "s3cret" ∧
    (getAzureDbConfig demoUrlParse c4Env1).isSome = true ∧
    (getAzureDbConfig demoUrlParse c4Env2).isSome = true := by
  refine ⟨?_, by rfl, by rfl, by rfl⟩
  exact (c4_password_never_from_connection_string demoUrlParse demoUrlParse
    demoPgParse demoPgParse c4Env1 c4Env2 rfl rfl rfl).1

/-! ## Claim C5 -/

/-- A parser that throws on every input, standing for a syntactically
invalid connection string. -/
def failingPgParse : String → Option PgParsed :=
  fun _ => none

/-- An environment with a connection string the parser rejects and with
`PGPASSWORD` set to a non-empty value. -/
def c5Env : Env :=
  { azureConnStr := some "not-a-connection-string"
    websiteDbPassword := none, pgPassword := some "s3cret"
    azurePgPassword := none, websitePrivateIp := none, pgHost := none
    websiteDbName := none, pgDatabase := none, websiteDbUser := none
    pgUser := none, websiteDbPort := none, pgPort := none }

/-- C5 counterexample.  A syntactically invalid connection string does
not produce a ParseFailure error: `getConnectionConfig` returns `null`,
the spread leaves every resolved field absent, and `validateConfig`
reports the missing-password error — here even though `PGPASSWORD`
resolves to the non-empty `s3cret`. -/
theorem c5_counterexample :
    validateConfig (dbConfig failingPgParse c5Env) =
      .error missingPasswordMsg ∧
    c5Env.pgPassword = some "s3cret" := by
  exact ⟨rfl, rfl⟩

/-- C5 as amended.  `validateConfig` is a pure check performing no
connection attempt: it fails with the missing-password error whenever
the resolved password is absent or empty (checked first), and with the
missing-fields error when the password is present but host, database or
user is absent or empty.  A syntactically invalid connection string,
however, is not reported as a distinct ParseFailure: in `config.ts` the
parse failure yields a `null` config, so `validateConfig` reports the
missing-password error even when password variables are set; in the
server entry a parse failure terminates the process directly
(`getAzureDbConfig` yields no config at all). -/
theorem c5_validation_errors (pgParse : String → Option PgParsed)
    (urlParse : String → Option URLRec) (env : Env)
    (cfg : DbConfigSpread) :
    (falsyOpt (dbConfig pgParse env).password = true →
      validateConfig (dbConfig pgParse env) = .error missingPasswordMsg) ∧
    (falsyOpt cfg.password = false →
      (falsyOpt cfg.host || falsyOpt cfg.database || falsyOpt cfg.user)
        = true →
      validateConfig cfg = .error missingFieldMsg) ∧
    (∀ cs : String, env.azureConnStr = some cs → pgParse cs = none →
      validateConfig (dbConfig pgParse env) = .error missingPasswordMsg) ∧
    (∀ cs : String, env.azureConnStr = some cs →
      falsyOpt env.azureConnStr = false →
      urlParse (if jsStartsWith cs "postgres://" then cs
                else "postgres://" ++ cs) = none →
      getAzureDbConfig urlParse env = none) := by
  refine ⟨?_, ?_, ?_, ?_⟩
  · intro h
    simp [validateConfig, h]
  · intro hpw hfields
    simp [validateConfig, hpw, hfields]
  · intro cs hcs hparse
    have hnone : getConnectionConfig pgParse env = none := by
      simp only [getConnectionConfig, hcs, hparse]
    simp [dbConfig, hnone, validateConfig, falsyOpt]
  · intro cs hcs hfalsy hparse
    unfold getAzureDbConfig
    rw [hcs] at hfalsy ⊢
    simp only [hfalsy]
    rw [hparse]

/-- Witness for C5: a config with a password but an empty host fails
with the missing-fields error; the demonstration environment with an
unparseable connection string fails with the missing-password error
despite its set `PGPASSWORD`; and the server entry yields no config on a
parse failure. -/
theorem c5_validation_errors_witness :
    validateConfig
      { host := some "", database := some "db", user := some "u"
        password := some "pw", port := some 5432
        sslRejectUnauthorized := some false, max := 20
        idleTimeoutMillis := 30000, connectionTimeoutMillis := 30000
        keepAlive := true, keepAliveInitialDelayMillis := 10000 } =
      .error missingFieldMsg ∧
    validateConfig (dbConfig failingPgParse c5Env) =
      .error missingPasswordMsg ∧
    getAzureDbConfig (fun _ => none) c5Env = none := by
  refine ⟨?_, ?_, ?_⟩
  · exact (c5_validation_errors failingPgParse (fun _ => none) c5Env
      { host := some "", database := some "db", user := some "u"
        password := some "pw", port := some 5432
        sslRejectUnauthorized := some false, max := 20
        idleTimeoutMillis := 30000, connectionTimeoutMillis := 30000
        keepAlive := true,
        keepAliveInitialDelayMillis := 10000 }).2.1 rfl rfl
  · exact ((c5_validation_errors failingPgParse (fun _ => none) c5Env
      (dbConfig failingPgParse c5Env)).2.2.1 "not-a-connection-string"
      rfl rfl)
  · exact ((c5_validation_errors failingPgParse (fun _ => none) c5Env
      (dbConfig failingPgParse c5Env)).2.2.2 "not-a-connection-string"
      rfl rfl rfl)

/-! ## Claim C8 -/

/-- C8 counterexample.  Nothing guards re-entry of `shutdown`: a second
termination signal delivered while the first shutdown run is still in
flight (before `process.exit`) enters the shutdown body a second
time. -/
theorem c8_counterexample :
    (shutRun false [.signal .sigterm, .signal .sigint]).entries = 2 ∧
    (shutRun false [.signal .sigterm, .signal .sigint]).exitCode = none ∧
    (2 : Nat) ≠ 1 := by
  exact ⟨rfl, rfl, by decide⟩

/-- C8 as amended.  Both termination signals are wired to the identical
`shutdown` handler, and a pool-drain failure is logged yet the process
still exits with status 0; but the shutdown path has no re-entry guard:
every signal delivered before `process.exit` unconditionally enters the
shutdown body again. -/
theorem c8_shutdown_behavior :
    (∀ (f : Bool) (st : ShutState),
      shutEvStep f st (.signal .sigterm) = shutEvStep f st (.signal .sigint)) ∧
    ((shutRun true [.signal .sigterm, .step, .step, .step]).exitCode
       = some 0 ∧
     "Error closing database connection:" ∈
       (shutRun true [.signal .sigterm, .step, .step, .step]).logs) ∧
    (∀ (f : Bool) (st : ShutState) (s : Sig), st.exitCode = none →
      (shutEvStep f st (.signal s)).entries = st.entries + 1) := by
  refine ⟨fun f st => rfl, ⟨rfl, by decide⟩, ?_⟩
  intro f st s h
  simp [shutEvStep, h]

/-- Witness for C8: from the initial state, one SIGTERM delivery enters
the shutdown body once. -/
theorem c8_shutdown_behavior_witness :
    (shutEvStep false shutInit (.signal .sigterm)).entries = 1 := by
  exact c8_shutdown_behavior.2.2 false shutInit .sigterm rfl

/-! ## Claim C9 -/

/-- A family of listeners among which listener 1 throws and every other
listener succeeds. -/
def c9Behavior : Nat → Bool → Except String Unit :=
  fun l _ => if l = 1 then .error "listener one threw" else .ok ()

/-- C9 counterexample.  With listeners 1 and 2 registered (in that
order) and listener 1 throwing, a notification invokes only listener 1:
listener 2, registered at the time of the probe, is never invoked, so a
throwing listener does prevent another registered listener from being
notified. -/
theorem c9_counterexample :
    (notifyListeners c9Behavior true [1, 2]).1 = [1] ∧
    2 ∉ (notifyListeners c9Behavior true [1, 2]).1 := by
  exact ⟨rfl, by decide⟩

/-- C9 as amended.  `notifyListeners` does not isolate listener
failures: listeners are invoked in insertion order until the first one
that throws; when none throws every registered listener is invoked with
the broadcast value, but a throwing listener stops the iteration — the
listeners after it are not invoked and its exception propagates out of
the notification loop. -/
theorem c9_notification_stops_at_first_throwing_listener
    (behavior : Nat → Bool → Except String Unit) (conn : Bool) :
    (∀ s : List Nat, (∀ l ∈ s, behavior l conn = .ok ()) →
      notifyListeners behavior conn s = (s, none)) ∧
    (∀ (s1 : List Nat) (t : Nat) (s2 : List Nat) (e : String),
      (∀ l ∈ s1, behavior l conn = .ok ()) →
      behavior t conn = .error e →
      notifyListeners behavior conn (s1 ++ t :: s2) = (s1 ++ [t], some e)) := by
  constructor
  · exact notifyListeners_all_ok behavior conn
  · intro s1
    induction s1 with
    | nil =>
      intro t s2 e _ ht
      simp [notifyListeners, ht]
    | cons l rest ih =>
      intro t s2 e hok ht
      have hl : behavior l conn = .ok () := hok l (by simp)
      have := ih t s2 e (fun m hm => hok m (by simp [hm])) ht
      simp [notifyListeners, hl, this]

/-- Witness for C9 at concrete inputs: all-ok listeners are all invoked,
and a throwing listener in the middle cuts the notification short. -/
theorem c9_notification_witness :
    notifyListeners c9Behavior true [2, 3] = ([2, 3], none) ∧
    notifyListeners c9Behavior true [2, 1, 3] =
      ([2, 1], some "listener one threw") := by
  constructor
  · exact (c9_notification_stops_at_first_throwing_listener c9Behavior
      true).1 [2, 3] (by intro l hl; fin_cases hl <;> rfl)
  · exact (c9_notification_stops_at_first_throwing_listener c9Behavior
      true).2 [2] 1 [3] "listener one threw"
      (by intro l hl; fin_cases hl; rfl) rfl

/-! ## Claim C10 -/

/-- C10.  Registering the same listener twice leaves it in the registry
once (the registry is a `Set` keyed on function identity, so the second
`add` is a no-op), a probe cycle in which no listener throws invokes it
exactly once, and the unsubscribe closure — both registrations return
the same `delete` — removes it entirely, after which notifications never
reach it again. -/
theorem c10_duplicate_registration_idempotent (s : List Nat) (l : Nat)
    (behavior : Nat → Bool → Except String Unit) (conn : Bool)
    (hl : l ∉ s) (hok : ∀ m ∈ setAdd s l, behavior m conn = .ok ()) :
    setAdd (setAdd s l) l = setAdd s l ∧
    (setAdd (setAdd s l) l).count l = 1 ∧
    (notifyListeners behavior conn (setAdd (setAdd s l) l)).1.count l = 1 ∧
    setDelete (setAdd (setAdd s l) l) l = s ∧
    l ∉ (notifyListeners behavior conn
          (setDelete (setAdd (setAdd s l) l) l)).1 := by
  have hadd : setAdd s l = s ++ [l] := by
    simp [setAdd, hl]
  have hidem : setAdd (setAdd s l) l = setAdd s l := by
    rw [hadd]
    simp [setAdd]
  have hcount : (setAdd s l).count l = 1 := by
    rw [hadd]
    rw [List.count_append]
    rw [List.count_eq_zero.mpr hl]
    simp
  have hnotify := notifyListeners_all_ok behavior conn (setAdd s l) hok
  have hdel : setDelete (setAdd s l) l = s := by
    rw [hadd]
    unfold setDelete
    rw [List.filter_append]
    rw [List.filter_eq_self.mpr (fun m hm => by
      simp only [decide_eq_true_eq, ne_eq]
      exact fun hml => hl (hml ▸ hm))]
    simp
  refine ⟨hidem, ?_, ?_, ?_, ?_⟩
  · rw [hidem]
    exact hcount
  · rw [hidem, hnotify]
    exact hcount
  · rw [hidem]
    exact hdel
  · rw [hidem, hdel]
    rw [notifyListeners_all_ok behavior conn s
      (fun m hm => hok m (by rw [hadd]; exact List.mem_append_left _ hm))]
    exact hl

/-- Witness for C10 at concrete inputs: listener 9 added twice to the
registry holding 4 and 7. -/
theorem c10_duplicate_registration_idempotent_witness :
    setAdd (setAdd [4, 7] 9) 9 = setAdd [4, 7] 9 ∧
    (setAdd (setAdd [4, 7] 9) 9).count 9 = 1 ∧
    (notifyListeners (fun _ _ => .ok ()) true
      (setAdd (setAdd [4, 7] 9) 9)).1.count 9 = 1 ∧
    setDelete (setAdd (setAdd [4, 7] 9) 9) 9 = [4, 7] ∧
    9 ∉ (notifyListeners (fun _ _ => .ok ()) true
          (setDelete (setAdd (setAdd [4, 7] 9) 9) 9)).1 := by
  exact c10_duplicate_registration_idempotent [4, 7] 9 (fun _ _ => .ok ())
    true (by decide) (fun m _ => rfl)

end TenderTracker
